import Mathlib

/-!
Parent side of the fork/exec handshake (`pkg/forkexec/fork_linux.go`).

A shallow embedding of `Runner.Start`, `syncWithChild`, `readChildErr`, `readlen`,
`handlePipeError` and `handleChildFailed`.

The functions are effectful: they issue system calls and call back into the caller.
The embedding makes this explicit.  The answers of the operating system and of the
collaborators are an input (`World`), and every call returns, next to its Go results,
the list of effects it performed (`Effect`).
-/

namespace Forkexec

/-! ## Platform values -/

/-- Go's `syscall.Errno`, a `uintptr`; `0` means "no error". -/
abbrev Errno := Nat

@[reducible] def EPERM : Errno := 1
@[reducible] def ENOENT : Errno := 2
@[reducible] def EINTR : Errno := 4
@[reducible] def EINVAL : Errno := 22
@[reducible] def EPIPE : Errno := 32

/-- Signal number of `syscall.SIGKILL`. -/
@[reducible] def SIGKILL : Nat := 9

/-- Flag `unix.CLONE_NEWUSER`. -/
@[reducible] def CLONE_NEWUSER : Nat := 0x10000000

/-- Value of `unsafe.Sizeof(syscall.Errno)`: one machine word on linux/amd64. -/
@[reducible] def sizeofErrno : Nat := 8

/-- Conversion `int(x)` of a `uintptr` on a 64-bit platform (two's complement). -/
def intOfUintptr (x : Nat) : Int :=
  if x % 2 ^ 64 < 2 ^ 63 then ((x % 2 ^ 64 : Nat) : Int) else ((x % 2 ^ 64 : Nat) : Int) - 2 ^ 64

/-! ## Data model -/

/-- Modelled from the spec: the declaration of `ErrorLocation` is not among the source
files.  The spec (4.3) describes a closed enumeration of stages "clone,
identity-mapping, set-hostname, pivot-root, chdir, identity-drop, execve, ...";
`LocUnset` is the zero value a fresh `ChildError` carries and `LocOther` stands for
the stages the spec elides. -/
inductive ErrorLocation where
  | LocUnset
  | LocClone
  | LocIdentityMapping
  | LocSetHostname
  | LocPivotRoot
  | LocChdir
  | LocIdentityDrop
  | LocExecve
  | LocOther (code : Nat)
  deriving DecidableEq, Repr

open ErrorLocation

/-- Modelled from the spec: the declaration of `ChildError` is not among the source
files.  The spec (3) gives it an `errno` and a `location`; the source uses the fields
`Err` and `Location`. -/
structure ChildError where
  Err : Errno
  Location : ErrorLocation
  deriving DecidableEq, Repr

/-- Zero value of `ChildError` (`var childErr ChildError`). -/
def ChildError.zero : ChildError := { Err := 0, Location := LocUnset }

/-- Values of Go's `error` interface: `nil`, a `syscall.Errno`, a `ChildError` record
of this package, or an error of any other dynamic type (named by its message). -/
inductive GoError where
  | nil
  | errno (e : Errno)
  | childError (c : ChildError)
  | other (msg : String)
  deriving DecidableEq, Repr

/-- Modelled from the spec: the declaration of `Runner` is not among the source files.
These are the fields `Start` and `syncWithChild` read.  `SyncFunc` is the optional
synchronization callback, a func from the pid to an `error`: `none` is a nil func, and
a call may answer any value of `error`, a `ChildError` or an `Errno` included. -/
structure Runner where
  ExecPath : String
  WorkDir : String
  HostName : String
  DomainName : String
  PivotRoot : String
  CloneFlags : Nat
  Ptrace : Bool
  StopBeforeSeccomp : Bool
  SyncFunc : Option (Int → GoError)

/-- Effects performed by the parent, in program order.  The two `SYS_WRITE` call sites
of `syncWithChild` are kept apart: `writeMapAck` is the acknowledgment that follows
`writeIDMaps`, `writeRelease` the one that releases the child. -/
inductive Effect where
  | socketpair
  | forkAndExecInChild
  | afterFork
  | forkLockUnlock
  | close (fd : Int)
  | writeIDMaps (pid : Int)
  | writeMapAck (fd : Int) (val : Errno)
  | read (fd : Int)
  | syncFunc (pid : Int)
  | writeRelease (fd : Int) (val : Errno)
  | go
  | kill (pid : Int) (sig : Nat)
  | wait4 (pid : Int)
  deriving DecidableEq, Repr

/-- Answer of the kernel to one `SYS_READ` on the channel: the raw return value, the
raw error number, and the contents of the `ChildError` buffer after the call. -/
structure ReadOutcome where
  r0 : Nat
  e1 : Errno
  buf : ChildError
  deriving DecidableEq, Repr

/-- Answers of the environment to `syncWithChild`.
* `idMaps`: modelled from the spec, `writeIDMaps` is not among the source files; it
  "returns the platform error code on failure and zero on success" (spec 4.4).
* `reads`: the answers to the successive `SYS_READ` calls on the parent's endpoint.
  When the script has run out the peer is closed: the read returns 0 bytes, no error,
  and leaves the buffer alone.
* `waits`: the error numbers of the successive `Wait4` calls; when the script has run
  out `Wait4` returns no error. -/
structure World where
  idMaps : Errno
  reads : List ReadOutcome
  waits : List Errno

/-- Result of a call: the Go results `(pid, err)`, the effects of the calling
goroutine in order, and the effects of the goroutine it started (empty when none
was started). -/
structure Outcome where
  pid : Int
  err : GoError
  trace : List Effect
  background : List Effect
  deriving DecidableEq, Repr

/-! ## The functions -/

/-- Function `readlen`: one `SYS_READ`; `n = int(r0)` and `err` is set only when `e1 != 0`. -/
def readlen (o : ReadOutcome) : Int × GoError :=
  (intOfUintptr o.r0, if o.e1 ≠ 0 then GoError.errno o.e1 else GoError.nil)

/-- Results of `readChildErr`: `n`, `err`, the buffer, the unread rest of the script and
the number of `SYS_READ` calls issued. -/
structure ReadRet where
  n : Int
  err : GoError
  childErr : ChildError
  rest : List ReadOutcome
  calls : Nat
  deriving DecidableEq, Repr

/-- Function `readChildErr`: repeat `readlen` until its error is not `EINTR`. -/
def readChildErr : List ReadOutcome → ChildError → ReadRet
  | [], c => { n := 0, err := GoError.nil, childErr := c, rest := [], calls := 1 }
  | o :: rest, _ =>
    if (readlen o).2 = GoError.errno EINTR then
      let r := readChildErr rest o.buf
      { r with calls := r.calls + 1 }
    else
      { n := (readlen o).1, err := (readlen o).2, childErr := o.buf, rest := rest, calls := 1 }

/-- Function `handlePipeError`: the error number is kept only when `r1` covers one. -/
def handlePipeError (r1 : Nat) (errno : Errno) : Errno :=
  if r1 ≥ sizeofErrno then errno else EPIPE

/-- Error value of `syscall.Wait4` for a raw error number. -/
def wait4Err (e1 : Errno) : GoError :=
  if e1 ≠ 0 then GoError.errno e1 else GoError.nil

/-- The `Wait4` calls of `handleChildFailed`: one call, repeated while it returns
`EINTR`. -/
def wait4Loop (pid : Int) : List Errno → List Effect
  | [] => [Effect.wait4 pid]
  | e :: rest =>
    if wait4Err e = GoError.errno EINTR then Effect.wait4 pid :: wait4Loop pid rest
    else [Effect.wait4 pid]

/-- Function `handleChildFailed`: `Kill(pid, SIGKILL)`, then the `Wait4` loop. -/
def handleChildFailed (pid : Int) (waits : List Errno) : List Effect :=
  Effect.kill pid SIGKILL :: wait4Loop pid waits

/-- Label `failAfterClose` of `syncWithChild`. -/
def failAfterClose (pid : Int) (childErr : ChildError) (err : GoError) (w : World)
    (trace : List Effect) : Outcome :=
  let trace := trace ++ handleChildFailed pid w.waits
  if childErr.Err = 0 then
    { pid := 0, err := err, trace := trace, background := [] }
  else
    { pid := 0, err := GoError.childError childErr, trace := trace, background := [] }

/-- Label `fail` of `syncWithChild`: close `p[0]`, then fall through. -/
def fail (p : Int × Int) (pid : Int) (childErr : ChildError) (err : GoError) (w : World)
    (trace : List Effect) : Outcome :=
  failAfterClose pid childErr err w (trace ++ [Effect.close p.1])

/-- The part of `syncWithChild` after the acknowledgment that releases the child. -/
def afterRelease (r : Runner) (p : Int × Int) (pid : Int) (w : World) (r1 : Nat)
    (rest : List ReadOutcome) (childErr : ChildError) (trace : List Effect) : Outcome :=
  if r.Ptrace || r.StopBeforeSeccomp then
    let rr := readChildErr rest childErr
    { pid := pid, err := GoError.nil, trace := trace ++ [Effect.go],
      background := List.replicate rr.calls (Effect.read p.1) ++ [Effect.close p.1] }
  else
    let rr := readChildErr rest childErr
    let trace := trace ++ List.replicate rr.calls (Effect.read p.1) ++ [Effect.close p.1]
    if rr.n ≠ 0 ∨ rr.err ≠ GoError.nil then
      let childErr := { rr.childErr with Err := handlePipeError r1 rr.childErr.Err }
      failAfterClose pid childErr rr.err w trace
    else
      { pid := pid, err := GoError.nil, trace := trace, background := [] }

/-- Function `syncWithChild(r, p, pid, err1)`; `p = (p[0], p[1])`, and `szChildError` is
`unsafe.Sizeof(childErr)` (a parameter, the record's declaration not being among the
source files). -/
def syncWithChild (szChildError : Nat) (r : Runner) (p : Int × Int) (pid : Int)
    (err1 : Errno) (w : World) : Outcome :=
  let r1 : Nat := 0
  let unshareUser : Bool := r.CloneFlags &&& CLONE_NEWUSER == CLONE_NEWUSER
  let childErr : ChildError := ChildError.zero
  let trace : List Effect := [Effect.close p.2]
  if err1 ≠ 0 then
    { pid := 0, err := GoError.childError { childErr with Location := LocClone, Err := err1 },
      trace := trace ++ [Effect.close p.1], background := [] }
  else
    let trace :=
      if unshareUser then
        trace ++ [Effect.writeIDMaps pid, Effect.writeMapAck p.1 w.idMaps]
      else trace
    let rr := readChildErr w.reads childErr
    let trace := trace ++ List.replicate rr.calls (Effect.read p.1)
    if (rr.n ≠ (sizeofErrno : Int) ∧ rr.n ≠ (szChildError : Int)) ∨ rr.childErr.Err ≠ 0
        ∨ rr.err ≠ GoError.nil then
      let childErr := { rr.childErr with Err := handlePipeError r1 rr.childErr.Err }
      fail p pid childErr rr.err w trace
    else
      match r.SyncFunc with
      | some f =>
        let err := f pid
        if err ≠ GoError.nil then
          fail p pid rr.childErr err w (trace ++ [Effect.syncFunc pid])
        else
          afterRelease r p pid w r1 rr.rest rr.childErr
            (trace ++ [Effect.syncFunc pid, Effect.writeRelease p.1 err1])
      | none =>
        afterRelease r p pid w r1 rr.rest rr.childErr (trace ++ [Effect.writeRelease p.1 err1])

/-- Answers of the environment to `Start`: the result of `syscall.Socketpair`, the result
`(pid, err1)` of `forkAndExecInChild` (not among the source files), and the answers to
`syncWithChild`. -/
structure StartWorld where
  socketpair : (Int × Int) × GoError
  fork : Nat × Errno
  sync : World

/-- Method `Runner.Start`.  `syscallStringFromString` is not among the source files and is a
parameter: it returns the converted string and an error. -/
def Start (szChildError : Nat) (syscallStringFromString : String → Option String × GoError)
    (r : Runner) (w : StartWorld) : Outcome :=
  if (syscallStringFromString r.WorkDir).2 ≠ GoError.nil then
    { pid := 0, err := (syscallStringFromString r.WorkDir).2, trace := [], background := [] }
  else if (syscallStringFromString r.HostName).2 ≠ GoError.nil then
    { pid := 0, err := (syscallStringFromString r.HostName).2, trace := [], background := [] }
  else if (syscallStringFromString r.DomainName).2 ≠ GoError.nil then
    { pid := 0, err := (syscallStringFromString r.DomainName).2, trace := [], background := [] }
  else if (syscallStringFromString r.PivotRoot).2 ≠ GoError.nil then
    { pid := 0, err := (syscallStringFromString r.PivotRoot).2, trace := [], background := [] }
  else if w.socketpair.2 ≠ GoError.nil then
    { pid := 0, err := w.socketpair.2, trace := [Effect.socketpair], background := [] }
  else
    let o := syncWithChild szChildError r w.socketpair.1 (intOfUintptr w.fork.1) w.fork.2 w.sync
    { o with trace := [Effect.socketpair, Effect.forkAndExecInChild, Effect.afterFork,
                       Effect.forkLockUnlock] ++ o.trace }


/-! ## Observations used to state the properties -/

/-- The checkpoint read: the first `readChildErr` of `syncWithChild`. -/
def checkpointRead (w : World) : ReadRet :=
  readChildErr w.reads ChildError.zero

/-- The final read: the `readChildErr` that follows the checkpoint read. -/
def finalRead (w : World) : ReadRet :=
  readChildErr (checkpointRead w).rest (checkpointRead w).childErr

/-- The checkpoint read is accepted: no error, a byte count of an error number or of a
full record, and `Err == 0` in the buffer. -/
def checkpointOk (szChildError : Nat) (w : World) : Prop :=
  (checkpointRead w).err = GoError.nil ∧
  ((checkpointRead w).n = (sizeofErrno : Int) ∨ (checkpointRead w).n = (szChildError : Int)) ∧
  (checkpointRead w).childErr.Err = 0

instance (szChildError : Nat) (w : World) : Decidable (checkpointOk szChildError w) := by
  unfold checkpointOk; infer_instance

/-- The final read saw the channel closed: 0 bytes and no error. -/
def finalQuiet (w : World) : Prop :=
  (finalRead w).n = 0 ∧ (finalRead w).err = GoError.nil

instance (w : World) : Decidable (finalQuiet w) := by
  unfold finalQuiet; infer_instance

/-- The callback lets the handshake go on: `SyncFunc` is nil or returns nil for `pid`. -/
def syncOk (r : Runner) (pid : Int) : Prop :=
  r.SyncFunc = none ∨ ∃ f, r.SyncFunc = some f ∧ f pid = GoError.nil

/-- The `CloneFlags` ask for a new user namespace. -/
def unshareUser (r : Runner) : Prop :=
  r.CloneFlags &&& CLONE_NEWUSER = CLONE_NEWUSER

instance (r : Runner) : Decidable (unshareUser r) := by
  unfold unshareUser; infer_instance

/-- Effects of the identity-mapping step. -/
def mappingStep (r : Runner) (p : Int × Int) (pid : Int) (w : World) : List Effect :=
  if unshareUser r then [Effect.writeIDMaps pid, Effect.writeMapAck p.1 w.idMaps] else []

/-- Effects up to and including the checkpoint read. -/
def preamble (r : Runner) (p : Int × Int) (pid : Int) (w : World) : List Effect :=
  Effect.close p.2 :: (mappingStep r p pid w ++
    List.replicate (checkpointRead w).calls (Effect.read p.1))

/-- The call of the callback, when one is configured. -/
def syncStep (r : Runner) (pid : Int) : List Effect :=
  if r.SyncFunc.isSome then [Effect.syncFunc pid] else []

/-- The effect is a `Kill` or a `Wait4`. -/
def isKillOrWait : Effect → Bool
  | Effect.kill _ _ => true
  | Effect.wait4 _ => true
  | _ => false

/-- The effect is a `Close`. -/
def isClose : Effect → Bool
  | Effect.close _ => true
  | _ => false

/-- The effect is a read from or a write to descriptor `fd`. -/
def isChannelOp (fd : Int) : Effect → Bool
  | Effect.read g => decide (g = fd)
  | Effect.writeMapAck g _ => decide (g = fd)
  | Effect.writeRelease g _ => decide (g = fd)
  | _ => false

/-- The effect is a call of `SyncFunc`. -/
def isSyncFunc : Effect → Bool
  | Effect.syncFunc _ => true
  | _ => false

/-- The effect belongs to the identity-mapping step. -/
def isMapping : Effect → Bool
  | Effect.writeIDMaps _ => true
  | Effect.writeMapAck _ _ => true
  | _ => false

/-- The reads and writes on descriptor `fd` among the effects, in order. -/
def channelOps (fd : Int) (es : List Effect) : List Effect :=
  es.filter (isChannelOp fd)

/-- Number of `EINTR` answers at the head of a `Wait4` script. -/
def leadingEINTR : List Errno → Nat
  | [] => 0
  | e :: rest => if e = EINTR then leadingEINTR rest + 1 else 0

/-- A runner without user namespace, tracing or callback. -/
def plainRunner : Runner :=
  { ExecPath := "/bin/true", WorkDir := "/w", HostName := "sandbox", DomainName := "d",
    PivotRoot := "/root", CloneFlags := 0, Ptrace := false, StopBeforeSeccomp := false,
    SyncFunc := none }

/-- The answer to a read that delivers a full record `c` (16 bytes, no error). -/
def fullRecord (c : ChildError) : ReadOutcome :=
  { r0 := 16, e1 := 0, buf := c }

/-- A world in which the child reaches the checkpoint and then execs. -/
def goodWorld : World :=
  { idMaps := 0, reads := [fullRecord ChildError.zero], waits := [] }

/-- A world in which the child passes the checkpoint and then reports that `execve`
failed with `ENOENT`, in a full record; the first `Wait4` is interrupted once. -/
def execFailWorld : World :=
  { idMaps := 0,
    reads := [fullRecord ChildError.zero, fullRecord { Err := ENOENT, Location := LocExecve }],
    waits := [EINTR, 0] }

/-- A world in which the child reports at the checkpoint that `chdir` failed with
`EPERM`, in a full record. -/
def chdirFailWorld : World :=
  { idMaps := 0, reads := [fullRecord { Err := EPERM, Location := LocChdir }], waits := [] }

/-- A conversion that accepts every string. -/
def acceptAll (s : String) : Option String × GoError :=
  (some s, GoError.nil)

/-- Answers to `Start` with a working socketpair `(3, 4)` and a clone that returns
pid 1234. -/
def startWorld (w : World) : StartWorld :=
  { socketpair := ((3, 4), GoError.nil), fork := (1234, 0), sync := w }

/-- The effect writes the acknowledgment that releases the child. -/
def isRelease : Effect → Bool
  | Effect.writeRelease _ _ => true
  | _ => false

/-- A runner whose callback fails for every pid. -/
def failingSyncRunner : Runner :=
  { plainRunner with SyncFunc := some (fun _ => GoError.other "cgroup") }

/-- A conversion in the manner of `syscall.BytePtrFromString`: a string that contains
a NUL byte is refused with `EINVAL`. -/
def rejectNul (s : String) : Option String × GoError :=
  if s.data.any (fun c => c.toNat = 0) then (none, GoError.errno EINVAL)
  else (some s, GoError.nil)

/-- A runner whose host name and pivot root contain a NUL byte. -/
def nulRunner : Runner :=
  { plainRunner with
    HostName := String.mk [Char.ofNat 115, Char.ofNat 0],
    PivotRoot := String.mk [Char.ofNat 0] }

/-- A runner that asks for a new user namespace and for tracing. -/
def usernsRunner : Runner :=
  { plainRunner with CloneFlags := 0x10000011, Ptrace := true,
                     SyncFunc := some (fun _ => GoError.nil) }

/-- A world in which the mapper fails with `EPERM` and the checkpoint read is
interrupted once before it delivers the checkpoint record. -/
def interruptedWorld : World :=
  { idMaps := EPERM,
    reads := [{ r0 := 2 ^ 64 - 1, e1 := EINTR, buf := ChildError.zero },
              fullRecord ChildError.zero],
    waits := [EINTR, 0] }

/-- Number of `EINTR` answers at the head of a read script. -/
def leadingEINTRReads : List ReadOutcome → Nat
  | [] => 0
  | o :: rest => if o.e1 = EINTR then leadingEINTRReads rest + 1 else 0

/-- Number of `SYS_READ` calls of the checkpoint read: one more than it is interrupted. -/
def checkpointCalls (w : World) : Nat :=
  leadingEINTRReads w.reads + 1

/-- Number of `SYS_READ` calls of the final read: one more than it is interrupted, on
the answers left over by the checkpoint read. -/
def finalCalls (w : World) : Nat :=
  leadingEINTRReads (w.reads.drop (checkpointCalls w)) + 1

/-- A runner whose callback returns a `ChildError` record of its own. -/
def childErrorSyncRunner : Runner :=
  { plainRunner with
    SyncFunc := some (fun _ => GoError.childError { Err := ENOENT, Location := LocExecve }) }

theorem checkpoint_cond_iff (szChildError : Nat) (w : World) :
    (((readChildErr w.reads ChildError.zero).n ≠ (sizeofErrno : Int) ∧
        (readChildErr w.reads ChildError.zero).n ≠ (szChildError : Int)) ∨
      (readChildErr w.reads ChildError.zero).childErr.Err ≠ 0 ∨
      (readChildErr w.reads ChildError.zero).err ≠ GoError.nil) ↔
    ¬ checkpointOk szChildError w := by
  unfold checkpointOk checkpointRead
  tauto

theorem syncWithChild_clone_failed (szChildError : Nat) (r : Runner) (p : Int × Int)
    (pid : Int) (err1 : Errno) (w : World) (h1 : err1 ≠ 0) :
    syncWithChild szChildError r p pid err1 w =
      { pid := 0, err := GoError.childError { Err := err1, Location := LocClone },
        trace := [Effect.close p.2, Effect.close p.1], background := [] } := by
  simp [syncWithChild, h1]

theorem syncWithChild_checkpoint_failed (szChildError : Nat) (r : Runner) (p : Int × Int)
    (pid : Int) (w : World) (hcp : ¬ checkpointOk szChildError w) :
    syncWithChild szChildError r p pid 0 w =
      { pid := 0,
        err := GoError.childError { Err := EPIPE, Location := (checkpointRead w).childErr.Location },
        trace := preamble r p pid w ++ Effect.close p.1 :: handleChildFailed pid w.waits,
        background := [] } := by
  have hc := (checkpoint_cond_iff szChildError w).mpr hcp
  unfold syncWithChild
  simp only [ne_eq, not_true_eq_false, if_false]
  rw [if_pos hc]
  unfold preamble mappingStep unshareUser checkpointRead
  by_cases hu : r.CloneFlags &&& CLONE_NEWUSER = CLONE_NEWUSER <;>
    simp [fail, failAfterClose, handlePipeError, hu]


theorem syncWithChild_sync_failed (szChildError : Nat) (r : Runner) (p : Int × Int)
    (pid : Int) (w : World) (f : Int → GoError) (e : GoError)
    (hcp : checkpointOk szChildError w) (hs : r.SyncFunc = some f)
    (hf : f pid = e ∧ e ≠ GoError.nil) :
    syncWithChild szChildError r p pid 0 w =
      { pid := 0, err := e,
        trace := preamble r p pid w ++
          Effect.syncFunc pid :: Effect.close p.1 :: handleChildFailed pid w.waits,
        background := [] } := by
  have hc := (not_congr (checkpoint_cond_iff szChildError w)).mpr (not_not.mpr hcp)
  have he : (readChildErr w.reads ChildError.zero).childErr.Err = 0 := hcp.2.2
  unfold syncWithChild
  simp only [ne_eq, not_true_eq_false, if_false]
  rw [if_neg hc]
  unfold preamble mappingStep unshareUser checkpointRead
  obtain ⟨hfe, hne⟩ := hf
  subst hfe
  by_cases hu : r.CloneFlags &&& CLONE_NEWUSER = CLONE_NEWUSER <;>
    simp [fail, failAfterClose, hu, hs, hne, he]

theorem syncWithChild_released (szChildError : Nat) (r : Runner) (p : Int × Int)
    (pid : Int) (w : World) (hcp : checkpointOk szChildError w) (hs : syncOk r pid) :
    syncWithChild szChildError r p pid 0 w =
      afterRelease r p pid w 0 (checkpointRead w).rest (checkpointRead w).childErr
        (preamble r p pid w ++ syncStep r pid ++ [Effect.writeRelease p.1 0]) := by
  have hc := (not_congr (checkpoint_cond_iff szChildError w)).mpr (not_not.mpr hcp)
  unfold syncWithChild
  simp only [ne_eq, not_true_eq_false, if_false]
  rw [if_neg hc]
  unfold preamble mappingStep unshareUser checkpointRead syncStep
  rcases hs with hs | ⟨f, hs, hf⟩
  · by_cases hu : r.CloneFlags &&& CLONE_NEWUSER = CLONE_NEWUSER <;> simp [hu, hs]
  · by_cases hu : r.CloneFlags &&& CLONE_NEWUSER = CLONE_NEWUSER <;> simp [hu, hs, hf]

theorem syncWithChild_traced (szChildError : Nat) (r : Runner) (p : Int × Int)
    (pid : Int) (w : World) (hcp : checkpointOk szChildError w) (hs : syncOk r pid)
    (ht : r.Ptrace = true ∨ r.StopBeforeSeccomp = true) :
    syncWithChild szChildError r p pid 0 w =
      { pid := pid, err := GoError.nil,
        trace := preamble r p pid w ++ syncStep r pid ++
          [Effect.writeRelease p.1 0, Effect.go],
        background := List.replicate (finalRead w).calls (Effect.read p.1) ++
          [Effect.close p.1] } := by
  rw [syncWithChild_released szChildError r p pid w hcp hs]
  have hb : (r.Ptrace || r.StopBeforeSeccomp) = true := by
    rcases ht with h | h <;> simp [h]
  simp [afterRelease, hb, finalRead]

theorem syncWithChild_exec_ok (szChildError : Nat) (r : Runner) (p : Int × Int)
    (pid : Int) (w : World) (hcp : checkpointOk szChildError w) (hs : syncOk r pid)
    (ht : ¬ (r.Ptrace = true ∨ r.StopBeforeSeccomp = true)) (hq : finalQuiet w) :
    syncWithChild szChildError r p pid 0 w =
      { pid := pid, err := GoError.nil,
        trace := preamble r p pid w ++ syncStep r pid ++
          Effect.writeRelease p.1 0 ::
            (List.replicate (finalRead w).calls (Effect.read p.1) ++ [Effect.close p.1]),
        background := [] } := by
  rw [syncWithChild_released szChildError r p pid w hcp hs]
  have hb : (r.Ptrace || r.StopBeforeSeccomp) = false := by
    simp only [not_or] at ht
    simp [ht.1, ht.2]
  have hn : ¬ ((finalRead w).n ≠ 0 ∨ (finalRead w).err ≠ GoError.nil) := by
    unfold finalQuiet at hq
    simp [hq.1, hq.2]
  unfold finalRead at hn
  unfold afterRelease
  simp only [hb, Bool.false_eq_true, if_false]
  rw [if_neg hn]
  simp [finalRead]

theorem syncWithChild_exec_failed (szChildError : Nat) (r : Runner) (p : Int × Int)
    (pid : Int) (w : World) (hcp : checkpointOk szChildError w) (hs : syncOk r pid)
    (ht : ¬ (r.Ptrace = true ∨ r.StopBeforeSeccomp = true)) (hq : ¬ finalQuiet w) :
    syncWithChild szChildError r p pid 0 w =
      { pid := 0,
        err := GoError.childError { Err := EPIPE, Location := (finalRead w).childErr.Location },
        trace := preamble r p pid w ++ syncStep r pid ++
          Effect.writeRelease p.1 0 ::
            (List.replicate (finalRead w).calls (Effect.read p.1) ++
              Effect.close p.1 :: handleChildFailed pid w.waits),
        background := [] } := by
  rw [syncWithChild_released szChildError r p pid w hcp hs]
  have hb : (r.Ptrace || r.StopBeforeSeccomp) = false := by
    simp only [not_or] at ht
    simp [ht.1, ht.2]
  have hn : (finalRead w).n ≠ 0 ∨ (finalRead w).err ≠ GoError.nil := by
    unfold finalQuiet at hq
    tauto
  unfold finalRead at hn
  unfold afterRelease
  simp only [hb, Bool.false_eq_true, if_false]
  rw [if_pos hn]
  simp [failAfterClose, handlePipeError, finalRead]


theorem not_syncOk_iff (r : Runner) (pid : Int) :
    ¬ syncOk r pid ↔ ∃ f e, r.SyncFunc = some f ∧ (f pid = e ∧ e ≠ GoError.nil) := by
  unfold syncOk
  rcases hs : r.SyncFunc with _ | f
  · simp
  · simp

/-- The five ways through `syncWithChild` after a successful clone. -/
theorem syncWithChild_paths (szChildError : Nat) (r : Runner) (p : Int × Int)
    (pid : Int) (w : World) :
    (¬ checkpointOk szChildError w ∧
      syncWithChild szChildError r p pid 0 w =
        { pid := 0,
          err := GoError.childError
            { Err := EPIPE, Location := (checkpointRead w).childErr.Location },
          trace := preamble r p pid w ++ Effect.close p.1 :: handleChildFailed pid w.waits,
          background := [] }) ∨
    (checkpointOk szChildError w ∧ ∃ f e, r.SyncFunc = some f ∧
      (f pid = e ∧ e ≠ GoError.nil) ∧
      syncWithChild szChildError r p pid 0 w =
        { pid := 0, err := e,
          trace := preamble r p pid w ++
            Effect.syncFunc pid :: Effect.close p.1 :: handleChildFailed pid w.waits,
          background := [] }) ∨
    (checkpointOk szChildError w ∧ syncOk r pid ∧
      (r.Ptrace = true ∨ r.StopBeforeSeccomp = true) ∧
      syncWithChild szChildError r p pid 0 w =
        { pid := pid, err := GoError.nil,
          trace := preamble r p pid w ++ syncStep r pid ++
            [Effect.writeRelease p.1 0, Effect.go],
          background := List.replicate (finalRead w).calls (Effect.read p.1) ++
            [Effect.close p.1] }) ∨
    (checkpointOk szChildError w ∧ syncOk r pid ∧
      ¬ (r.Ptrace = true ∨ r.StopBeforeSeccomp = true) ∧ finalQuiet w ∧
      syncWithChild szChildError r p pid 0 w =
        { pid := pid, err := GoError.nil,
          trace := preamble r p pid w ++ syncStep r pid ++
            Effect.writeRelease p.1 0 ::
              (List.replicate (finalRead w).calls (Effect.read p.1) ++ [Effect.close p.1]),
          background := [] }) ∨
    (checkpointOk szChildError w ∧ syncOk r pid ∧
      ¬ (r.Ptrace = true ∨ r.StopBeforeSeccomp = true) ∧ ¬ finalQuiet w ∧
      syncWithChild szChildError r p pid 0 w =
        { pid := 0,
          err := GoError.childError
            { Err := EPIPE, Location := (finalRead w).childErr.Location },
          trace := preamble r p pid w ++ syncStep r pid ++
            Effect.writeRelease p.1 0 ::
              (List.replicate (finalRead w).calls (Effect.read p.1) ++
                Effect.close p.1 :: handleChildFailed pid w.waits),
          background := [] }) := by
  by_cases hcp : checkpointOk szChildError w
  · by_cases hs : syncOk r pid
    · by_cases ht : r.Ptrace = true ∨ r.StopBeforeSeccomp = true
      · exact Or.inr (Or.inr (Or.inl
          ⟨hcp, hs, ht, syncWithChild_traced szChildError r p pid w hcp hs ht⟩))
      · by_cases hq : finalQuiet w
        · exact Or.inr (Or.inr (Or.inr (Or.inl
            ⟨hcp, hs, ht, hq, syncWithChild_exec_ok szChildError r p pid w hcp hs ht hq⟩)))
        · exact Or.inr (Or.inr (Or.inr (Or.inr
            ⟨hcp, hs, ht, hq, syncWithChild_exec_failed szChildError r p pid w hcp hs ht hq⟩)))
    · obtain ⟨f, msg, hf, hm⟩ := (not_syncOk_iff r pid).mp hs
      exact Or.inr (Or.inl
        ⟨hcp, f, msg, hf, hm, syncWithChild_sync_failed szChildError r p pid w f msg hcp hf hm⟩)
  · exact Or.inl ⟨hcp, syncWithChild_checkpoint_failed szChildError r p pid w hcp⟩

/-- C1: `syncWithChild` returns a nil error if and only if the clone succeeded, the
checkpoint read is accepted (no error, a byte count of `sizeof(Errno)` or
`sizeof(ChildError)`, `Err == 0`), `SyncFunc` is nil or returns nil, and either `Ptrace`
or `StopBeforeSeccomp` is set or the final read returns 0 bytes with no error; and when
the error is nil the pid returned is the pid passed in. -/
theorem syncWithChild_nil_iff (szChildError : Nat) (r : Runner) (p : Int × Int) (pid : Int)
    (err1 : Errno) (w : World) :
    ((syncWithChild szChildError r p pid err1 w).err = GoError.nil ↔
      err1 = 0 ∧
      ((checkpointRead w).err = GoError.nil ∧
        ((checkpointRead w).n = (sizeofErrno : Int) ∨
          (checkpointRead w).n = (szChildError : Int)) ∧
        (checkpointRead w).childErr.Err = 0) ∧
      (r.SyncFunc = none ∨ ∃ f, r.SyncFunc = some f ∧ f pid = GoError.nil) ∧
      ((r.Ptrace = true ∨ r.StopBeforeSeccomp = true) ∨
        ((finalRead w).n = 0 ∧ (finalRead w).err = GoError.nil))) ∧
    ((syncWithChild szChildError r p pid err1 w).err = GoError.nil →
      (syncWithChild szChildError r p pid err1 w).pid = pid) := by
  by_cases h1 : err1 = 0
  · subst h1
    change (_ ↔ 0 = 0 ∧ checkpointOk szChildError w ∧ syncOk r pid ∧ (_ ∨ finalQuiet w)) ∧ _
    rcases syncWithChild_paths szChildError r p pid w with
      ⟨hcp, h⟩ | ⟨hcp, f, msg, hf, hm, h⟩ | ⟨hcp, hs, ht, h⟩ | ⟨hcp, hs, ht, hq, h⟩ |
      ⟨hcp, hs, ht, hq, h⟩
    · rw [h]; simp [hcp]
    · have hs : ¬ syncOk r pid := (not_syncOk_iff r pid).mpr ⟨f, msg, hf, hm⟩
      rw [h]; simp [hs, hm.2]
    · rw [h]; simp [hcp, hs, ht]
    · rw [h]; simp [hcp, hs, hq]
    · rw [h]; simp [hq, ht]
  · rw [syncWithChild_clone_failed szChildError r p pid err1 w h1]
    simp [h1]

/-- C3 (counterexample): handed pid 0 with `err1 == 0`, and a child that passes the
checkpoint and execs, `syncWithChild` returns pid 0 together with a nil error. -/
theorem syncWithChild_zero_pid_nil_error :
    (syncWithChild 16 plainRunner (3, 4) 0 0 goodWorld).pid = 0 ∧
    (syncWithChild 16 plainRunner (3, 4) 0 0 goodWorld).err = GoError.nil := by
  decide

/-- C3 (amended): `syncWithChild` returns either `(pid, nil)` or `(0, e)` with `e`
non-nil; a non-nil error never comes with a non-zero pid; and pid 0 comes with a nil
error exactly when the pid passed in is 0 and the handshake succeeds (the pid is handed
through unchanged). -/
theorem syncWithChild_pid_or_error (szChildError : Nat) (r : Runner) (p : Int × Int)
    (pid : Int) (err1 : Errno) (w : World) :
    (((syncWithChild szChildError r p pid err1 w).pid = pid ∧
        (syncWithChild szChildError r p pid err1 w).err = GoError.nil) ∨
      ((syncWithChild szChildError r p pid err1 w).pid = 0 ∧
        (syncWithChild szChildError r p pid err1 w).err ≠ GoError.nil)) ∧
    ¬ ((syncWithChild szChildError r p pid err1 w).pid ≠ 0 ∧
        (syncWithChild szChildError r p pid err1 w).err ≠ GoError.nil) ∧
    (((syncWithChild szChildError r p pid err1 w).pid = 0 ∧
        (syncWithChild szChildError r p pid err1 w).err = GoError.nil) ↔
      (pid = 0 ∧ err1 = 0 ∧ checkpointOk szChildError w ∧ syncOk r pid ∧
        ((r.Ptrace = true ∨ r.StopBeforeSeccomp = true) ∨ finalQuiet w))) := by
  by_cases h1 : err1 = 0
  · subst h1
    rcases syncWithChild_paths szChildError r p pid w with
      ⟨hcp, h⟩ | ⟨hcp, f, msg, hf, hm, h⟩ | ⟨hcp, hs, ht, h⟩ | ⟨hcp, hs, ht, hq, h⟩ |
      ⟨hcp, hs, ht, hq, h⟩
    · rw [h]; simp [hcp]
    · have hs : ¬ syncOk r pid := (not_syncOk_iff r pid).mpr ⟨f, msg, hf, hm⟩
      rw [h]; simp [hs, hm.2]
    · rw [h]; simp [hcp, hs, ht]
    · rw [h]; simp [hcp, hs, hq]
    · rw [h]; simp [hq, ht]
  · rw [syncWithChild_clone_failed szChildError r p pid err1 w h1]
    simp [h1]

theorem syncWithChild_nil_iff_witness :
    (syncWithChild 16 plainRunner (3, 4) 1234 0 goodWorld).err = GoError.nil ∧
    (syncWithChild 16 plainRunner (3, 4) 1234 0 goodWorld).pid = 1234 :=
  ⟨(syncWithChild_nil_iff 16 plainRunner (3, 4) 1234 0 goodWorld).1.mpr
     ⟨rfl, by decide, Or.inl rfl, Or.inr (by decide)⟩,
   (syncWithChild_nil_iff 16 plainRunner (3, 4) 1234 0 goodWorld).2 (by decide)⟩

theorem syncWithChild_pid_or_error_witness :
    (((syncWithChild 16 plainRunner (3, 4) 1234 0 goodWorld).pid = 1234 ∧
        (syncWithChild 16 plainRunner (3, 4) 1234 0 goodWorld).err = GoError.nil) ∨
      ((syncWithChild 16 plainRunner (3, 4) 1234 0 goodWorld).pid = 0 ∧
        (syncWithChild 16 plainRunner (3, 4) 1234 0 goodWorld).err ≠ GoError.nil)) ∧
    ¬ ((syncWithChild 16 plainRunner (3, 4) 1234 0 goodWorld).pid = 0 ∧
        (syncWithChild 16 plainRunner (3, 4) 1234 0 goodWorld).err = GoError.nil) ∧
    ((syncWithChild 16 plainRunner (3, 4) 0 0 goodWorld).pid = 0 ∧
        (syncWithChild 16 plainRunner (3, 4) 0 0 goodWorld).err = GoError.nil) :=
  ⟨(syncWithChild_pid_or_error 16 plainRunner (3, 4) 1234 0 goodWorld).1,
   fun h => absurd
     ((syncWithChild_pid_or_error 16 plainRunner (3, 4) 1234 0 goodWorld).2.2.mp h).1
     (by decide),
   (syncWithChild_pid_or_error 16 plainRunner (3, 4) 0 0 goodWorld).2.2.mpr
     ⟨rfl, rfl, by decide, Or.inl rfl, Or.inr (by decide)⟩⟩

/-- C2 (evaluation at the failing input): a child that reports `{execve, ENOENT}` in a
full record on the final read makes `syncWithChild` and `Start` return
`(0, ChildError{execve, EPIPE})`, not `(0, ChildError{execve, ENOENT})`; a full record
`{chdir, EPERM}` at the checkpoint is returned as `{chdir, EPIPE}`. -/
theorem childError_code_replaced_by_EPIPE :
    (finalRead execFailWorld).n = 16 ∧ (finalRead execFailWorld).err = GoError.nil ∧
    (finalRead execFailWorld).childErr = { Err := ENOENT, Location := LocExecve } ∧
    (syncWithChild 16 plainRunner (3, 4) 1234 0 execFailWorld).pid = 0 ∧
    (syncWithChild 16 plainRunner (3, 4) 1234 0 execFailWorld).err =
      GoError.childError { Err := EPIPE, Location := LocExecve } ∧
    (Start 16 acceptAll plainRunner (startWorld execFailWorld)).pid = 0 ∧
    (Start 16 acceptAll plainRunner (startWorld execFailWorld)).err =
      GoError.childError { Err := EPIPE, Location := LocExecve } ∧
    (Start 16 acceptAll plainRunner (startWorld execFailWorld)).err ≠
      GoError.childError { Err := ENOENT, Location := LocExecve } ∧
    (checkpointRead chdirFailWorld).n = 16 ∧
    (checkpointRead chdirFailWorld).childErr = { Err := EPERM, Location := LocChdir } ∧
    (syncWithChild 16 plainRunner (3, 4) 1234 0 chdirFailWorld).err =
      GoError.childError { Err := EPIPE, Location := LocChdir } := by
  decide

theorem wait4Err_eq_EINTR (e : Errno) : wait4Err e = GoError.errno EINTR ↔ e = EINTR := by
  unfold wait4Err
  by_cases h : e = 0
  · subst h; simp
  · simp [h]

theorem wait4Loop_eq (pid : Int) (ws : List Errno) :
    wait4Loop pid ws = List.replicate (leadingEINTR ws + 1) (Effect.wait4 pid) := by
  induction ws with
  | nil => rfl
  | cons e rest ih =>
    by_cases h : e = EINTR
    · have h2 : wait4Err e = GoError.errno EINTR := (wait4Err_eq_EINTR e).mpr h
      simp only [wait4Loop, leadingEINTR, if_pos h, if_pos h2, ih]
      rfl
    · have h2 : ¬ wait4Err e = GoError.errno EINTR := fun hh => h ((wait4Err_eq_EINTR e).mp hh)
      simp only [wait4Loop, leadingEINTR, if_neg h, if_neg h2]
      rfl

theorem preamble_quiet (r : Runner) (p : Int × Int) (pid : Int) (w : World) :
    ∀ e ∈ preamble r p pid w,
      isKillOrWait e = false ∧ isSyncFunc e = false ∧ e ≠ Effect.go ∧
        (∀ fd v, e ≠ Effect.writeRelease fd v) := by
  intro e he
  unfold preamble mappingStep at he
  by_cases hu : unshareUser r
  · simp only [hu, if_true, List.mem_cons, List.mem_append, List.mem_replicate] at he
    rcases he with rfl | (rfl | rfl | h) | ⟨_, rfl⟩ <;>
      first
        | (simp [isKillOrWait, isSyncFunc]; done)
        | exact absurd h (List.not_mem_nil _)
  · simp only [hu, if_false, List.mem_cons, List.mem_append, List.mem_replicate] at he
    rcases he with rfl | h | ⟨_, rfl⟩ <;>
      first
        | (simp [isKillOrWait, isSyncFunc]; done)
        | exact absurd h (List.not_mem_nil _)

theorem syncStep_quiet (r : Runner) (pid : Int) :
    ∀ e ∈ syncStep r pid, isKillOrWait e = false ∧ e = Effect.syncFunc pid := by
  intro e he
  unfold syncStep at he
  by_cases hs : r.SyncFunc.isSome = true
  · simp only [hs, if_true, List.mem_singleton] at he
    subst he
    simp [isKillOrWait]
  · simp [hs] at he

/-- C4: after a successful clone, every return of a non-nil error is preceded by exactly
one `handleChildFailed(pid)` (one `SIGKILL`, then `Wait4` once more than it was
interrupted by `EINTR`) as the last effects; a return of a nil error and the
clone-failure path issue no kill and no wait. -/
theorem syncWithChild_reaps_exactly_on_failure (szChildError : Nat) (r : Runner)
    (p : Int × Int) (pid : Int) (err1 : Errno) (w : World) :
    (err1 = 0 → (syncWithChild szChildError r p pid err1 w).err ≠ GoError.nil →
      ∃ pre, (syncWithChild szChildError r p pid err1 w).trace =
          pre ++ handleChildFailed pid w.waits ∧
        (∀ e ∈ pre, isKillOrWait e = false) ∧
        (syncWithChild szChildError r p pid err1 w).background = []) ∧
    handleChildFailed pid w.waits =
      Effect.kill pid SIGKILL :: List.replicate (leadingEINTR w.waits + 1) (Effect.wait4 pid) ∧
    (((syncWithChild szChildError r p pid err1 w).err = GoError.nil ∨ err1 ≠ 0) →
      ∀ e ∈ (syncWithChild szChildError r p pid err1 w).trace ++
          (syncWithChild szChildError r p pid err1 w).background,
        isKillOrWait e = false) := by
  refine ⟨?_, ?_, ?_⟩
  · intro h1 hne
    subst h1
    rcases syncWithChild_paths szChildError r p pid w with
      ⟨_, h⟩ | ⟨_, f, msg, _, _, h⟩ | ⟨_, _, _, h⟩ | ⟨_, _, _, _, h⟩ | ⟨_, _, _, _, h⟩
    · rw [h]
      refine ⟨preamble r p pid w ++ [Effect.close p.1], by simp, ?_, rfl⟩
      intro e he
      rcases List.mem_append.mp he with he | he
      · exact (preamble_quiet r p pid w e he).1
      · rw [List.mem_singleton.mp he]; rfl
    · rw [h]
      refine ⟨preamble r p pid w ++ [Effect.syncFunc pid, Effect.close p.1], by simp, ?_, rfl⟩
      intro e he
      rcases List.mem_append.mp he with he | he
      · exact (preamble_quiet r p pid w e he).1
      · simp only [List.mem_cons, List.mem_singleton, List.not_mem_nil, or_false] at he
        rcases he with rfl | rfl <;> rfl
    · rw [h] at hne; exact absurd rfl hne
    · rw [h] at hne; exact absurd rfl hne
    · rw [h]
      refine ⟨preamble r p pid w ++ syncStep r pid ++ Effect.writeRelease p.1 0 ::
        (List.replicate (finalRead w).calls (Effect.read p.1) ++ [Effect.close p.1]),
        by simp, ?_, rfl⟩
      intro e he
      simp only [List.mem_append, List.mem_cons, List.mem_replicate, List.mem_singleton,
        List.not_mem_nil, or_false] at he
      rcases he with (he | he) | rfl | ⟨_, rfl⟩ | rfl
      · exact (preamble_quiet r p pid w e he).1
      · exact (syncStep_quiet r pid e he).1
      · rfl
      · rfl
      · rfl
  · unfold handleChildFailed
    rw [wait4Loop_eq]
  · intro hor e he
    by_cases h1 : err1 = 0
    · subst h1
      have hnil : (syncWithChild szChildError r p pid 0 w).err = GoError.nil := by
        rcases hor with h | h
        · exact h
        · exact absurd rfl h
      rcases syncWithChild_paths szChildError r p pid w with
        ⟨_, h⟩ | ⟨_, f, msg, _, hm, h⟩ | ⟨_, _, _, h⟩ | ⟨_, _, _, _, h⟩ | ⟨_, _, _, _, h⟩
      · rw [h] at hnil; exact absurd hnil (by simp)
      · rw [h] at hnil; exact absurd hnil hm.2
      · rw [h] at he
        simp only [List.mem_append, List.mem_cons, List.mem_replicate, List.mem_singleton,
          List.not_mem_nil, or_false] at he
        rcases he with ((he | he) | rfl | rfl) | ⟨_, rfl⟩ | rfl
        · exact (preamble_quiet r p pid w e he).1
        · exact (syncStep_quiet r pid e he).1
        · rfl
        · rfl
        · rfl
        · rfl
      · rw [h] at he
        simp only [List.mem_append, List.mem_cons, List.mem_replicate, List.mem_singleton,
          List.not_mem_nil, or_false] at he
        rcases he with (he | he) | rfl | ⟨_, rfl⟩ | rfl
        · exact (preamble_quiet r p pid w e he).1
        · exact (syncStep_quiet r pid e he).1
        · rfl
        · rfl
        · rfl
      · rw [h] at hnil; exact absurd hnil (by simp)
    · rw [syncWithChild_clone_failed szChildError r p pid err1 w h1] at he
      simp only [List.mem_append, List.mem_cons, List.mem_singleton, List.not_mem_nil,
        or_false] at he
      rcases he with rfl | rfl <;> rfl


theorem syncWithChild_reaps_exactly_on_failure_witness :
    ∃ pre, (syncWithChild 16 plainRunner (3, 4) 1234 0 execFailWorld).trace =
        pre ++ handleChildFailed 1234 execFailWorld.waits ∧
      (∀ e ∈ pre, isKillOrWait e = false) ∧
      (syncWithChild 16 plainRunner (3, 4) 1234 0 execFailWorld).background = [] :=
  (syncWithChild_reaps_exactly_on_failure 16 plainRunner (3, 4) 1234 0 execFailWorld).1
    rfl (by decide)

theorem handleChildFailed_filter (pid : Int) (ws : List Errno) :
    (handleChildFailed pid ws).filter isKillOrWait = handleChildFailed pid ws ∧
    (handleChildFailed pid ws).filter isSyncFunc = [] ∧
    (handleChildFailed pid ws).filter isRelease = [] := by
  unfold handleChildFailed
  rw [wait4Loop_eq]
  simp [List.filter_cons, List.filter_replicate, isKillOrWait, isSyncFunc, isRelease]

theorem preamble_filter (r : Runner) (p : Int × Int) (pid : Int) (w : World) :
    (preamble r p pid w).filter isKillOrWait = [] ∧
    (preamble r p pid w).filter isSyncFunc = [] ∧
    (preamble r p pid w).filter isRelease = [] := by
  unfold preamble mappingStep
  by_cases hu : unshareUser r <;>
    simp [hu, List.filter_cons, List.filter_append, List.filter_replicate, isKillOrWait,
      isSyncFunc, isRelease]

theorem syncStep_filter (r : Runner) (pid : Int) :
    (syncStep r pid).filter isKillOrWait = [] ∧
    (syncStep r pid).filter isSyncFunc = syncStep r pid ∧
    (syncStep r pid).filter isRelease = [] := by
  unfold syncStep
  by_cases hs : r.SyncFunc.isSome = true <;>
    simp [hs, List.filter_cons, isKillOrWait, isSyncFunc, isRelease]

theorem readlen_err_EINTR (o : ReadOutcome) :
    (readlen o).2 = GoError.errno EINTR ↔ o.e1 = EINTR := by
  unfold readlen
  by_cases h : o.e1 = 0
  · simp [h]
  · simp [h]

theorem readChildErr_calls (rs : List ReadOutcome) (c : ChildError) :
    (readChildErr rs c).calls = leadingEINTRReads rs + 1 ∧
    (readChildErr rs c).rest = rs.drop (leadingEINTRReads rs + 1) := by
  induction rs generalizing c with
  | nil => exact ⟨rfl, rfl⟩
  | cons o rest ih =>
    by_cases h : o.e1 = EINTR
    · have h2 : (readlen o).2 = GoError.errno EINTR := (readlen_err_EINTR o).mpr h
      simp only [readChildErr, leadingEINTRReads, if_pos h, if_pos h2, List.drop_succ_cons]
      exact ⟨by rw [(ih o.buf).1], (ih o.buf).2⟩
    · have h2 : ¬ (readlen o).2 = GoError.errno EINTR :=
        fun hh => h ((readlen_err_EINTR o).mp hh)
      simp [readChildErr, leadingEINTRReads, h, h2]

theorem checkpointRead_calls (w : World) : (checkpointRead w).calls = checkpointCalls w :=
  (readChildErr_calls w.reads ChildError.zero).1

theorem finalRead_calls (w : World) : (finalRead w).calls = finalCalls w := by
  unfold finalRead finalCalls checkpointCalls
  rw [(readChildErr_calls _ _).1]
  unfold checkpointRead
  rw [(readChildErr_calls w.reads ChildError.zero).2]

theorem mappingStep_filter (r : Runner) (p : Int × Int) (pid : Int) (w : World) :
    (mappingStep r p pid w).filter isKillOrWait = [] ∧
    (mappingStep r p pid w).filter isSyncFunc = [] ∧
    (mappingStep r p pid w).filter isRelease = [] := by
  unfold mappingStep
  by_cases hu : unshareUser r <;>
    simp [hu, List.filter_cons, isKillOrWait, isSyncFunc, isRelease]

/-- C5: when the checkpoint read is accepted and `SyncFunc` returns a non-nil error,
`SyncFunc` is called exactly once, with the pid, right after the checkpoint read; no
release acknowledgment is written; the child is killed and reaped exactly once; and
`(0, e)` is returned.  In every run, a release acknowledgment is written at most once,
on the parent's endpoint with value 0, only when `SyncFunc` is nil or returned nil, and
every `SyncFunc` call precedes it. -/
theorem syncFunc_failure_and_release_order (szChildError : Nat) (r : Runner)
    (p : Int × Int) (pid : Int) (err1 : Errno) (w : World) :
    (∀ f e, err1 = 0 → checkpointOk szChildError w → r.SyncFunc = some f →
      f pid = e → e ≠ GoError.nil →
        (syncWithChild szChildError r p pid err1 w).pid = 0 ∧
        (syncWithChild szChildError r p pid err1 w).err = e ∧
        (syncWithChild szChildError r p pid err1 w).trace =
          Effect.close p.2 :: (mappingStep r p pid w ++
            List.replicate (leadingEINTRReads w.reads + 1) (Effect.read p.1)) ++
          Effect.syncFunc pid :: Effect.close p.1 :: Effect.kill pid SIGKILL ::
            List.replicate (leadingEINTR w.waits + 1) (Effect.wait4 pid) ∧
        (syncWithChild szChildError r p pid err1 w).background = [] ∧
        (syncWithChild szChildError r p pid err1 w).trace.filter isSyncFunc =
          [Effect.syncFunc pid] ∧
        (syncWithChild szChildError r p pid err1 w).trace.filter isRelease = [] ∧
        (syncWithChild szChildError r p pid err1 w).trace.filter isKillOrWait =
          Effect.kill pid SIGKILL ::
            List.replicate (leadingEINTR w.waits + 1) (Effect.wait4 pid)) ∧
    (∀ fd v, Effect.writeRelease fd v ∈ (syncWithChild szChildError r p pid err1 w).trace ++
        (syncWithChild szChildError r p pid err1 w).background →
      fd = p.1 ∧ v = 0 ∧
      (r.SyncFunc = none ∨ ∃ f, r.SyncFunc = some f ∧ f pid = GoError.nil) ∧
      ∃ pre post, (syncWithChild szChildError r p pid err1 w).trace =
          pre ++ Effect.writeRelease p.1 0 :: post ∧
        pre.filter isSyncFunc = syncStep r pid ∧
        pre.filter isRelease = [] ∧
        (post ++ (syncWithChild szChildError r p pid err1 w).background).filter isSyncFunc = [] ∧
        (post ++ (syncWithChild szChildError r p pid err1 w).background).filter isRelease = []) := by
  refine ⟨?_, ?_⟩
  · intro f e h1 hcp hs hf hne
    subst h1
    rw [syncWithChild_sync_failed szChildError r p pid w f e hcp hs ⟨hf, hne⟩]
    have hm := mappingStep_filter r p pid w
    have hc : (checkpointRead w).calls = leadingEINTRReads w.reads + 1 :=
      checkpointRead_calls w
    refine ⟨rfl, rfl, ?_, rfl, ?_, ?_, ?_⟩
    · simp [preamble, hc, handleChildFailed, wait4Loop_eq]
    · simp [preamble, hc, handleChildFailed, wait4Loop_eq, List.filter_append,
        List.filter_cons, List.filter_replicate, hm.2.1, isSyncFunc]
    · simp [preamble, hc, handleChildFailed, wait4Loop_eq, List.filter_append,
        List.filter_cons, List.filter_replicate, hm.2.2, isRelease]
    · simp [preamble, hc, handleChildFailed, wait4Loop_eq, List.filter_append,
        List.filter_cons, List.filter_replicate, hm.1, isKillOrWait]
  · intro fd v hmem
    have hp := preamble_filter r p pid w
    have hs := syncStep_filter r pid
    have hh := handleChildFailed_filter pid w.waits
    by_cases h1 : err1 = 0
    · subst h1
      change _ ∧ _ ∧ syncOk r pid ∧ _
      rcases syncWithChild_paths szChildError r p pid w with
        ⟨_, h⟩ | ⟨_, f, msg, _, _, h⟩ | ⟨_, hso, _, h⟩ | ⟨_, hso, _, _, h⟩ | ⟨_, hso, _, _, h⟩
      · rw [h] at hmem
        have := List.mem_filter.mpr ⟨hmem, (rfl : isRelease (Effect.writeRelease fd v) = true)⟩
        simp [List.filter_append, List.filter_cons, hp.2.2, hh.2.2, isRelease] at this
      · rw [h] at hmem
        have := List.mem_filter.mpr ⟨hmem, (rfl : isRelease (Effect.writeRelease fd v) = true)⟩
        simp [List.filter_append, List.filter_cons, hp.2.2, hh.2.2, isRelease] at this
      · rw [h] at hmem ⊢
        have := List.mem_filter.mpr ⟨hmem, (rfl : isRelease (Effect.writeRelease fd v) = true)⟩
        simp [List.filter_append, List.filter_cons, List.filter_replicate, hp.2.2, hs.2.2,
          isRelease] at this
        refine ⟨this.1, this.2, hso, preamble r p pid w ++ syncStep r pid, [Effect.go],
          by simp, ?_, ?_, ?_, ?_⟩
        · simp [List.filter_append, hp.2.1, hs.2.1]
        · simp [List.filter_append, hp.2.2, hs.2.2]
        · simp [List.filter_append, List.filter_cons, List.filter_replicate, isSyncFunc]
        · simp [List.filter_append, List.filter_cons, List.filter_replicate, isRelease]
      · rw [h] at hmem ⊢
        have := List.mem_filter.mpr ⟨hmem, (rfl : isRelease (Effect.writeRelease fd v) = true)⟩
        simp [List.filter_append, List.filter_cons, List.filter_replicate, hp.2.2, hs.2.2,
          isRelease] at this
        refine ⟨this.1, this.2, hso, preamble r p pid w ++ syncStep r pid,
          List.replicate (finalRead w).calls (Effect.read p.1) ++ [Effect.close p.1],
          by simp, ?_, ?_, ?_, ?_⟩
        · simp [List.filter_append, hp.2.1, hs.2.1]
        · simp [List.filter_append, hp.2.2, hs.2.2]
        · simp [List.filter_append, List.filter_cons, List.filter_replicate, isSyncFunc]
        · simp [List.filter_append, List.filter_cons, List.filter_replicate, isRelease]
      · rw [h] at hmem ⊢
        have := List.mem_filter.mpr ⟨hmem, (rfl : isRelease (Effect.writeRelease fd v) = true)⟩
        simp [List.filter_append, List.filter_cons, List.filter_replicate, hp.2.2, hs.2.2,
          hh.2.2, isRelease] at this
        refine ⟨this.1, this.2, hso, preamble r p pid w ++ syncStep r pid,
          List.replicate (finalRead w).calls (Effect.read p.1) ++
            Effect.close p.1 :: handleChildFailed pid w.waits,
          by simp, ?_, ?_, ?_, ?_⟩
        · simp [List.filter_append, hp.2.1, hs.2.1]
        · simp [List.filter_append, hp.2.2, hs.2.2]
        · simp [List.filter_append, List.filter_cons, List.filter_replicate, isSyncFunc, hh.2.1]
        · simp [List.filter_append, List.filter_cons, List.filter_replicate, isRelease, hh.2.2]
    · rw [syncWithChild_clone_failed szChildError r p pid err1 w h1] at hmem
      simp at hmem

theorem syncFunc_failure_and_release_order_witness :
    checkpointOk 16 goodWorld ∧
    (syncWithChild 16 failingSyncRunner (3, 4) 1234 0 goodWorld).pid = 0 ∧
    (syncWithChild 16 failingSyncRunner (3, 4) 1234 0 goodWorld).err =
      GoError.other "cgroup" ∧
    (syncWithChild 16 failingSyncRunner (3, 4) 1234 0 goodWorld).trace.filter isKillOrWait =
      [Effect.kill 1234 SIGKILL, Effect.wait4 1234] :=
  ⟨by decide,
   ((syncFunc_failure_and_release_order 16 failingSyncRunner (3, 4) 1234 0 goodWorld).1
      (fun _ => GoError.other "cgroup") (GoError.other "cgroup") rfl (by decide) rfl rfl
      (by decide)).1,
   ((syncFunc_failure_and_release_order 16 failingSyncRunner (3, 4) 1234 0 goodWorld).1
      (fun _ => GoError.other "cgroup") (GoError.other "cgroup") rfl (by decide) rfl rfl
      (by decide)).2.1,
   ((syncFunc_failure_and_release_order 16 failingSyncRunner (3, 4) 1234 0 goodWorld).1
      (fun _ => GoError.other "cgroup") (GoError.other "cgroup") rfl (by decide) rfl rfl
      (by decide)).2.2.2.2.2.2⟩

/-- C6: when the clone failed (`err1 != 0`) `syncWithChild` closes `p[1]`, then `p[0]`,
does nothing else (no read, no write, no `writeIDMaps`, no `SyncFunc`, no kill, no
wait, no goroutine) and returns `(0, ChildError{Location: LocClone, Err: err1})`. -/
theorem syncWithChild_clone_failure (szChildError : Nat) (r : Runner) (p : Int × Int)
    (pid : Int) (err1 : Errno) (w : World) (h1 : err1 ≠ 0) :
    (syncWithChild szChildError r p pid err1 w).pid = 0 ∧
    (syncWithChild szChildError r p pid err1 w).err =
      GoError.childError { Location := LocClone, Err := err1 } ∧
    (syncWithChild szChildError r p pid err1 w).trace = [Effect.close p.2, Effect.close p.1] ∧
    (syncWithChild szChildError r p pid err1 w).background = [] := by
  rw [syncWithChild_clone_failed szChildError r p pid err1 w h1]
  exact ⟨rfl, rfl, rfl, rfl⟩

theorem syncWithChild_clone_failure_witness :
    (syncWithChild 16 failingSyncRunner (3, 4) 0 EPERM goodWorld).pid = 0 ∧
    (syncWithChild 16 failingSyncRunner (3, 4) 0 EPERM goodWorld).err =
      GoError.childError { Location := LocClone, Err := EPERM } ∧
    (syncWithChild 16 failingSyncRunner (3, 4) 0 EPERM goodWorld).trace =
      [Effect.close 4, Effect.close 3] ∧
    (syncWithChild 16 failingSyncRunner (3, 4) 0 EPERM goodWorld).background = [] :=
  syncWithChild_clone_failure 16 failingSyncRunner (3, 4) 0 EPERM goodWorld (by decide)

/-- C10 (counterexample): after a successful clone and an accepted checkpoint read, a
`SyncFunc` that returns the error `ChildError{execve, ENOENT}` makes `syncWithChild`
return that `ChildError`, whose `Err` is not `EPIPE`. -/
theorem syncFunc_childError_returned_unchanged :
    ∃ c, (syncWithChild 16 childErrorSyncRunner (3, 4) 1234 0 goodWorld).err =
        GoError.childError c ∧ c.Err ≠ EPIPE :=
  ⟨{ Err := ENOENT, Location := LocExecve }, by decide, by decide⟩

/-- C10 (amended): `syncWithChild` passes `r1 = 0` to `handlePipeError`, which then
returns `EPIPE` whatever its `errno` argument (it returns `errno` only when
`r1 >= sizeof(Errno)`).  So after a successful clone a `ChildError` that `syncWithChild`
returns has `Err == EPIPE`, unless it is the very error `SyncFunc` returned after an
accepted checkpoint read, which is handed back unchanged: a rejected checkpoint read
and a non-empty final read both give `{EPIPE, location read}`; the clone failure gives
`{LocClone, err1}`. -/
theorem childError_code_is_EPIPE (szChildError : Nat) (r : Runner) (p : Int × Int)
    (pid : Int) (err1 : Errno) (w : World) :
    (∀ errno, handlePipeError 0 errno = EPIPE) ∧
    (∀ r1 errno, handlePipeError r1 errno = if r1 ≥ sizeofErrno then errno else EPIPE) ∧
    (err1 = 0 → ∀ c, (syncWithChild szChildError r p pid err1 w).err = GoError.childError c →
      c.Err = EPIPE ∨
        (checkpointOk szChildError w ∧
          ∃ f, r.SyncFunc = some f ∧ f pid = GoError.childError c)) ∧
    (err1 = 0 → ¬ checkpointOk szChildError w →
      (syncWithChild szChildError r p pid err1 w).err =
        GoError.childError { Err := EPIPE, Location := (checkpointRead w).childErr.Location }) ∧
    (err1 = 0 → checkpointOk szChildError w →
      (r.SyncFunc = none ∨ ∃ f, r.SyncFunc = some f ∧ f pid = GoError.nil) →
      ¬ (r.Ptrace = true ∨ r.StopBeforeSeccomp = true) → ¬ finalQuiet w →
      (syncWithChild szChildError r p pid err1 w).err =
        GoError.childError { Err := EPIPE, Location := (finalRead w).childErr.Location }) ∧
    (err1 ≠ 0 → (syncWithChild szChildError r p pid err1 w).err =
      GoError.childError { Location := LocClone, Err := err1 }) ∧
    (err1 = 0 → checkpointOk szChildError w → ∀ f, r.SyncFunc = some f →
      f pid ≠ GoError.nil → (syncWithChild szChildError r p pid err1 w).err = f pid) := by
  refine ⟨fun errno => by simp [handlePipeError], fun r1 errno => rfl, ?_, ?_, ?_, ?_, ?_⟩
  · intro h1 c hc
    subst h1
    rcases syncWithChild_paths szChildError r p pid w with
      ⟨_, h⟩ | ⟨hcp, f, e, hf, hm, h⟩ | ⟨_, _, _, h⟩ | ⟨_, _, _, _, h⟩ | ⟨_, _, _, _, h⟩
    · rw [h] at hc
      simp at hc
      exact Or.inl (by rw [← hc])
    · rw [h] at hc
      exact Or.inr ⟨hcp, f, hf, by rw [hm.1]; exact hc⟩
    · rw [h] at hc
      simp at hc
    · rw [h] at hc
      simp at hc
    · rw [h] at hc
      simp at hc
      exact Or.inl (by rw [← hc])
  · intro h1 hcp
    subst h1
    rw [syncWithChild_checkpoint_failed szChildError r p pid w hcp]
  · intro h1 hcp hs ht hq
    subst h1
    rw [syncWithChild_exec_failed szChildError r p pid w hcp hs ht hq]
  · intro h1
    rw [syncWithChild_clone_failed szChildError r p pid err1 w h1]
  · intro h1 hcp f hs hne
    subst h1
    rw [syncWithChild_sync_failed szChildError r p pid w f (f pid) hcp hs ⟨rfl, hne⟩]

theorem childError_code_is_EPIPE_witness :
    (syncWithChild 16 plainRunner (3, 4) 1234 0 chdirFailWorld).err =
      GoError.childError { Err := EPIPE, Location := LocChdir } ∧
    (syncWithChild 16 plainRunner (3, 4) 1234 0 execFailWorld).err =
      GoError.childError { Err := EPIPE, Location := LocExecve } ∧
    (syncWithChild 16 plainRunner (3, 4) 0 ENOENT goodWorld).err =
      GoError.childError { Location := LocClone, Err := ENOENT } ∧
    (syncWithChild 16 childErrorSyncRunner (3, 4) 1234 0 goodWorld).err =
      GoError.childError { Err := ENOENT, Location := LocExecve } :=
  ⟨(childError_code_is_EPIPE 16 plainRunner (3, 4) 1234 0 chdirFailWorld).2.2.2.1
      rfl (by decide),
   (childError_code_is_EPIPE 16 plainRunner (3, 4) 1234 0 execFailWorld).2.2.2.2.1
      rfl (by decide) (Or.inl rfl) (by decide) (by decide),
   (childError_code_is_EPIPE 16 plainRunner (3, 4) 0 ENOENT goodWorld).2.2.2.2.2.1
      (by decide),
   (childError_code_is_EPIPE 16 childErrorSyncRunner (3, 4) 1234 0 goodWorld).2.2.2.2.2.2
      rfl (by decide)
      (fun _ => GoError.childError { Err := ENOENT, Location := LocExecve }) rfl
      (by decide)⟩

/-- C9: when the conversion of `WorkDir`, `HostName`, `DomainName` or `PivotRoot` fails,
`Start` returns `(0, err)` with `err` the error of the first of them, in that order,
whose conversion fails, and performs no effect at all: no socketpair, no
`forkAndExecInChild`, no `syncWithChild`. -/
theorem Start_conversion_error (szChildError : Nat)
    (syscallStringFromString : String → Option String × GoError) (r : Runner)
    (w : StartWorld) (e : GoError)
    (h : ([r.WorkDir, r.HostName, r.DomainName, r.PivotRoot].map
        (fun s => (syscallStringFromString s).2)).find?
          (fun x => decide (x ≠ GoError.nil)) = some e) :
    Start szChildError syscallStringFromString r w =
      { pid := 0, err := e, trace := [], background := [] } := by
  unfold Start
  simp only [List.map_cons, List.map_nil] at h
  by_cases h1 : (syscallStringFromString r.WorkDir).2 ≠ GoError.nil
  · rw [if_pos h1]
    rw [List.find?_cons_of_pos _ (by simpa using h1)] at h
    rw [Option.some.inj h]
  · rw [if_neg h1]
    rw [List.find?_cons_of_neg _ (by simpa using h1)] at h
    by_cases h2 : (syscallStringFromString r.HostName).2 ≠ GoError.nil
    · rw [if_pos h2]
      rw [List.find?_cons_of_pos _ (by simpa using h2)] at h
      rw [Option.some.inj h]
    · rw [if_neg h2]
      rw [List.find?_cons_of_neg _ (by simpa using h2)] at h
      by_cases h3 : (syscallStringFromString r.DomainName).2 ≠ GoError.nil
      · rw [if_pos h3]
        rw [List.find?_cons_of_pos _ (by simpa using h3)] at h
        rw [Option.some.inj h]
      · rw [if_neg h3]
        rw [List.find?_cons_of_neg _ (by simpa using h3)] at h
        by_cases h4 : (syscallStringFromString r.PivotRoot).2 ≠ GoError.nil
        · rw [if_pos h4]
          rw [List.find?_cons_of_pos _ (by simpa using h4)] at h
          rw [Option.some.inj h]
        · rw [List.find?_cons_of_neg _ (by simpa using h4)] at h
          simp at h


theorem Start_conversion_error_witness :
    Start 16 rejectNul nulRunner (startWorld goodWorld) =
      { pid := 0, err := GoError.errno EINVAL, trace := [], background := [] } :=
  Start_conversion_error 16 rejectNul nulRunner (startWorld goodWorld)
    (GoError.errno EINVAL) (by decide)


theorem handleChildFailed_silent (pid : Int) (ws : List Errno) (fd : Int) :
    (handleChildFailed pid ws).filter isClose = [] ∧
    (handleChildFailed pid ws).filter (isChannelOp fd) = [] ∧
    (handleChildFailed pid ws).filter isMapping = [] := by
  unfold handleChildFailed
  rw [wait4Loop_eq]
  simp [List.filter_cons, List.filter_replicate, isClose, isChannelOp, isMapping]

theorem syncStep_silent (r : Runner) (pid : Int) (fd : Int) :
    (syncStep r pid).filter isClose = [] ∧
    (syncStep r pid).filter (isChannelOp fd) = [] ∧
    (syncStep r pid).filter isMapping = [] := by
  unfold syncStep
  by_cases hs : r.SyncFunc.isSome = true <;>
    simp [hs, List.filter_cons, isClose, isChannelOp, isMapping]

theorem mappingStep_no_close (r : Runner) (p : Int × Int) (pid : Int) (w : World) :
    (mappingStep r p pid w).filter isClose = [] := by
  unfold mappingStep
  by_cases hu : unshareUser r <;> simp [hu, List.filter_cons, isClose]

theorem count_close_eq_zero (l : List Effect) (fd : Int) (h : l.filter isClose = []) :
    l.count (Effect.close fd) = 0 := by
  rw [List.count_eq_zero]
  intro hmem
  have : Effect.close fd ∈ l.filter isClose := List.mem_filter.mpr ⟨hmem, rfl⟩
  rw [h] at this
  exact absurd this (List.not_mem_nil _)

/-- The shape shared by all paths as far as the two endpoints go. -/
theorem syncWithChild_close_shape (szChildError : Nat) (r : Runner) (p : Int × Int)
    (pid : Int) (err1 : Errno) (w : World) :
    ∃ mid tail,
      (syncWithChild szChildError r p pid err1 w).trace ++
          (syncWithChild szChildError r p pid err1 w).background =
        Effect.close p.2 :: (mid ++ Effect.close p.1 :: tail) ∧
      mid.filter isClose = [] ∧ tail.filter isClose = [] ∧
      tail.filter (isChannelOp p.1) = [] := by
  have hh := handleChildFailed_silent pid w.waits p.1
  have hm := mappingStep_no_close r p pid w
  have hs := syncStep_silent r pid p.1
  by_cases h1 : err1 = 0
  · subst h1
    rcases syncWithChild_paths szChildError r p pid w with
      ⟨_, h⟩ | ⟨_, f, msg, _, _, h⟩ | ⟨_, _, _, h⟩ | ⟨_, _, _, _, h⟩ | ⟨_, _, _, _, h⟩
    · rw [h]
      refine ⟨mappingStep r p pid w ++ List.replicate (checkpointRead w).calls (Effect.read p.1),
        handleChildFailed pid w.waits, by simp [preamble], ?_, hh.1, hh.2.1⟩
      simp [List.filter_append, List.filter_replicate, hm, isClose]
    · rw [h]
      refine ⟨mappingStep r p pid w ++ List.replicate (checkpointRead w).calls (Effect.read p.1)
          ++ [Effect.syncFunc pid],
        handleChildFailed pid w.waits, by simp [preamble], ?_, hh.1, hh.2.1⟩
      simp [List.filter_append, List.filter_replicate, List.filter_cons, hm, isClose]
    · rw [h]
      refine ⟨mappingStep r p pid w ++ List.replicate (checkpointRead w).calls (Effect.read p.1)
          ++ syncStep r pid ++ [Effect.writeRelease p.1 0, Effect.go]
          ++ List.replicate (finalRead w).calls (Effect.read p.1),
        [], by simp [preamble], ?_, rfl, rfl⟩
      simp [List.filter_append, List.filter_replicate, List.filter_cons, hm, hs.1, isClose]
    · rw [h]
      refine ⟨mappingStep r p pid w ++ List.replicate (checkpointRead w).calls (Effect.read p.1)
          ++ syncStep r pid ++ Effect.writeRelease p.1 0 ::
            List.replicate (finalRead w).calls (Effect.read p.1),
        [], by simp [preamble], ?_, rfl, rfl⟩
      simp [List.filter_append, List.filter_replicate, List.filter_cons, hm, hs.1, isClose]
    · rw [h]
      refine ⟨mappingStep r p pid w ++ List.replicate (checkpointRead w).calls (Effect.read p.1)
          ++ syncStep r pid ++ Effect.writeRelease p.1 0 ::
            List.replicate (finalRead w).calls (Effect.read p.1),
        handleChildFailed pid w.waits, by simp [preamble], ?_, hh.1, hh.2.1⟩
      simp [List.filter_append, List.filter_replicate, List.filter_cons, hm, hs.1, isClose]
  · rw [syncWithChild_clone_failed szChildError r p pid err1 w h1]
    exact ⟨[], [], rfl, rfl, rfl, rfl⟩

theorem syncWithChild_trace_head (szChildError : Nat) (r : Runner) (p : Int × Int)
    (pid : Int) (err1 : Errno) (w : World) :
    (syncWithChild szChildError r p pid err1 w).trace.head? = some (Effect.close p.2) := by
  by_cases h1 : err1 = 0
  · subst h1
    rcases syncWithChild_paths szChildError r p pid w with
      ⟨_, h⟩ | ⟨_, f, msg, _, _, h⟩ | ⟨_, _, _, h⟩ | ⟨_, _, _, _, h⟩ | ⟨_, _, _, _, h⟩ <;>
      rw [h] <;> simp [preamble]
  · rw [syncWithChild_clone_failed szChildError r p pid err1 w h1]
    rfl

/-- C8: on every path, the background task included, the first effect is the close of
`p[1]`; there is exactly one further close, that of `p[0]`; every read and write on
`p[0]` comes before it; and, the two descriptors being distinct, each is closed
exactly once. -/
theorem endpoints_closed_exactly_once (szChildError : Nat) (r : Runner) (p : Int × Int)
    (pid : Int) (err1 : Errno) (w : World) :
    (syncWithChild szChildError r p pid err1 w).trace.head? = some (Effect.close p.2) ∧
    (∃ mid tail,
      (syncWithChild szChildError r p pid err1 w).trace ++
          (syncWithChild szChildError r p pid err1 w).background =
        Effect.close p.2 :: (mid ++ Effect.close p.1 :: tail) ∧
      mid.filter isClose = [] ∧ tail.filter isClose = [] ∧
      tail.filter (isChannelOp p.1) = []) ∧
    (p.1 ≠ p.2 →
      ((syncWithChild szChildError r p pid err1 w).trace ++
          (syncWithChild szChildError r p pid err1 w).background).count (Effect.close p.1) = 1 ∧
      ((syncWithChild szChildError r p pid err1 w).trace ++
          (syncWithChild szChildError r p pid err1 w).background).count (Effect.close p.2) = 1) := by
  refine ⟨syncWithChild_trace_head szChildError r p pid err1 w,
    syncWithChild_close_shape szChildError r p pid err1 w, ?_⟩
  intro hne
  obtain ⟨mid, tail, hfull, hmid, htail, _⟩ :=
    syncWithChild_close_shape szChildError r p pid err1 w
  rw [hfull]
  have hne2 : p.2 ≠ p.1 := fun h => hne h.symm
  have c1 := count_close_eq_zero mid p.1 hmid
  have c2 := count_close_eq_zero tail p.1 htail
  have c3 := count_close_eq_zero mid p.2 hmid
  have c4 := count_close_eq_zero tail p.2 htail
  constructor
  · simp [List.count_cons, List.count_append, c1, c2, hne2]
  · simp [List.count_cons, List.count_append, c3, c4, hne]

theorem endpoints_closed_exactly_once_witness :
    ((syncWithChild 16 usernsRunner (3, 4) 1234 0 interruptedWorld).trace ++
        (syncWithChild 16 usernsRunner (3, 4) 1234 0 interruptedWorld).background).count
          (Effect.close 3) = 1 ∧
    ((syncWithChild 16 usernsRunner (3, 4) 1234 0 interruptedWorld).trace ++
        (syncWithChild 16 usernsRunner (3, 4) 1234 0 interruptedWorld).background).count
          (Effect.close 4) = 1 :=
  (endpoints_closed_exactly_once 16 usernsRunner (3, 4) 1234 0 interruptedWorld).2.2
    (by decide)


theorem preamble_channelOps (r : Runner) (p : Int × Int) (pid : Int) (w : World)
    (hu : ¬ unshareUser r) :
    preamble r p pid w =
      Effect.close p.2 :: List.replicate (checkpointRead w).calls (Effect.read p.1) ∧
    (preamble r p pid w).filter isMapping = [] ∧
    channelOps p.1 (preamble r p pid w) =
      List.replicate (checkpointRead w).calls (Effect.read p.1) := by
  unfold preamble mappingStep channelOps
  simp [hu, List.filter_cons, List.filter_replicate, isMapping, isChannelOp]

/-- C7 (counterexample): without `CLONE_NEWUSER`, when the child reports a failure at the
checkpoint the only channel operation is the checkpoint read; no release write and
no final read follow. -/
theorem channel_ops_stop_at_failed_checkpoint :
    ¬ unshareUser plainRunner ∧
    channelOps 3
      ((syncWithChild 16 plainRunner (3, 4) 1234 0 chdirFailWorld).trace ++
        (syncWithChild 16 plainRunner (3, 4) 1234 0 chdirFailWorld).background) =
      [Effect.read 3] ∧
    channelOps 3
      ((syncWithChild 16 plainRunner (3, 4) 1234 0 chdirFailWorld).trace ++
        (syncWithChild 16 plainRunner (3, 4) 1234 0 chdirFailWorld).background) ≠
      [Effect.read 3, Effect.writeRelease 3 0, Effect.read 3] := by
  decide

/-- C7 (amended): after a successful clone `writeIDMaps` runs if and only if `CloneFlags`
contains `CLONE_NEWUSER`; it then runs once, right after the close of `p[1]` and before
any read or write on the channel, and the acknowledgment written right after it carries
the mapper's error code.  Without `CLONE_NEWUSER` there is no mapping effect and the
channel operations are, in order: the checkpoint read, and, only when that read is
accepted and `SyncFunc` is nil or returns nil, the release write of 0 and the final read
(made by the background task when `Ptrace` or `StopBeforeSeccomp` is set); otherwise the
checkpoint read alone.  Each of the two reads is one `SYS_READ` for every `EINTR` answer
at the head of the answers left, and one more. -/
theorem identity_mapping_and_channel_order (szChildError : Nat) (r : Runner)
    (p : Int × Int) (pid : Int) (w : World) :
    (unshareUser r ↔
      Effect.writeIDMaps pid ∈ (syncWithChild szChildError r p pid 0 w).trace ++
        (syncWithChild szChildError r p pid 0 w).background) ∧
    (unshareUser r →
      ∃ rest, (syncWithChild szChildError r p pid 0 w).trace =
          Effect.close p.2 :: Effect.writeIDMaps pid :: Effect.writeMapAck p.1 w.idMaps ::
            rest ∧
        (rest ++ (syncWithChild szChildError r p pid 0 w).background).filter isMapping = []) ∧
    (¬ unshareUser r →
      ((syncWithChild szChildError r p pid 0 w).trace ++
        (syncWithChild szChildError r p pid 0 w).background).filter isMapping = [] ∧
      (checkpointOk szChildError w ∧ syncOk r pid →
        channelOps p.1 ((syncWithChild szChildError r p pid 0 w).trace ++
            (syncWithChild szChildError r p pid 0 w).background) =
          List.replicate (checkpointCalls w) (Effect.read p.1) ++
            Effect.writeRelease p.1 0 ::
              List.replicate (finalCalls w) (Effect.read p.1)) ∧
      (checkpointOk szChildError w ∧ syncOk r pid →
        (r.Ptrace = true ∨ r.StopBeforeSeccomp = true) →
        channelOps p.1 (syncWithChild szChildError r p pid 0 w).trace =
          List.replicate (checkpointCalls w) (Effect.read p.1) ++
            [Effect.writeRelease p.1 0] ∧
        channelOps p.1 (syncWithChild szChildError r p pid 0 w).background =
          List.replicate (finalCalls w) (Effect.read p.1)) ∧
      (checkpointOk szChildError w ∧ syncOk r pid →
        ¬ (r.Ptrace = true ∨ r.StopBeforeSeccomp = true) →
        (syncWithChild szChildError r p pid 0 w).background = []) ∧
      (¬ (checkpointOk szChildError w ∧ syncOk r pid) →
        channelOps p.1 ((syncWithChild szChildError r p pid 0 w).trace ++
            (syncWithChild szChildError r p pid 0 w).background) =
          List.replicate (checkpointCalls w) (Effect.read p.1))) := by
  have hh := handleChildFailed_silent pid w.waits p.1
  have hs := syncStep_silent r pid p.1
  rw [← checkpointRead_calls w, ← finalRead_calls w]
  refine ⟨?_, ?_, ?_⟩
  · constructor
    · intro hu
      rcases syncWithChild_paths szChildError r p pid w with
        ⟨_, h⟩ | ⟨_, f, msg, _, _, h⟩ | ⟨_, _, _, h⟩ | ⟨_, _, _, _, h⟩ | ⟨_, _, _, _, h⟩ <;>
        rw [h] <;> simp [preamble, mappingStep, hu]
    · intro hmem
      by_contra hu
      have hp := preamble_channelOps r p pid w hu
      have hf := List.mem_filter.mpr
        ⟨hmem, (rfl : isMapping (Effect.writeIDMaps pid) = true)⟩
      rcases syncWithChild_paths szChildError r p pid w with
        ⟨_, h⟩ | ⟨_, f, msg, _, _, h⟩ | ⟨_, _, _, h⟩ | ⟨_, _, _, _, h⟩ | ⟨_, _, _, _, h⟩ <;>
        rw [h] at hf <;>
        simp [List.filter_append, List.filter_cons, List.filter_replicate, hp.2.1, hh.2.2,
          hs.2.2, isMapping] at hf
  · intro hu
    have hpre : preamble r p pid w =
        Effect.close p.2 :: Effect.writeIDMaps pid :: Effect.writeMapAck p.1 w.idMaps ::
          List.replicate (checkpointRead w).calls (Effect.read p.1) := by
      simp [preamble, mappingStep, hu]
    rcases syncWithChild_paths szChildError r p pid w with
      ⟨_, h⟩ | ⟨_, f, msg, _, _, h⟩ | ⟨_, _, _, h⟩ | ⟨_, _, _, _, h⟩ | ⟨_, _, _, _, h⟩ <;>
      rw [h, hpre] <;>
      refine ⟨_, by simp only [List.cons_append]; rfl, ?_⟩ <;>
      simp [List.filter_append, List.filter_cons, List.filter_replicate, hh.2.2, hs.2.2,
        isMapping]
  · intro hu
    have hp := preamble_channelOps r p pid w hu
    have hc : channelOps p.1 (handleChildFailed pid w.waits) = [] := hh.2.1
    have hsc : channelOps p.1 (syncStep r pid) = [] := hs.2.1
    rcases syncWithChild_paths szChildError r p pid w with
      ⟨hcp, h⟩ | ⟨hcp, f, msg, hf, hm, h⟩ | ⟨hcp, hso, ht, h⟩ | ⟨hcp, hso, ht, hq, h⟩ |
      ⟨hcp, hso, ht, hq, h⟩
    · rw [h]
      refine ⟨?_, fun hb => absurd hb.1 hcp, fun hb => absurd hb.1 hcp,
        fun hb => absurd hb.1 hcp, fun _ => ?_⟩
      · simp [List.filter_append, List.filter_cons, hp.2.1, hh.2.2, isMapping]
      · have := hp.2.2
        simp only [channelOps] at this hc ⊢
        simp [List.filter_append, List.filter_cons, this, hc, isChannelOp]
    · have hns : ¬ syncOk r pid := (not_syncOk_iff r pid).mpr ⟨f, msg, hf, hm⟩
      rw [h]
      refine ⟨?_, fun hb => absurd hb.2 hns, fun hb => absurd hb.2 hns,
        fun hb => absurd hb.2 hns, fun _ => ?_⟩
      · simp [List.filter_append, List.filter_cons, hp.2.1, hh.2.2, isMapping]
      · have := hp.2.2
        simp only [channelOps] at this hc ⊢
        simp [List.filter_append, List.filter_cons, this, hc, isChannelOp]
    · rw [h]
      have := hp.2.2
      simp only [channelOps] at this hc hsc ⊢
      refine ⟨?_, fun _ => ?_, fun _ _ => ⟨?_, ?_⟩, fun _ hnt => absurd ht hnt,
        fun hb => absurd ⟨hcp, hso⟩ hb⟩
      · simp [List.filter_append, List.filter_cons, List.filter_replicate, hp.2.1, hs.2.2,
          isMapping]
      · simp [List.filter_append, List.filter_cons, List.filter_replicate, this, hsc,
          isChannelOp]
      · simp [List.filter_append, List.filter_cons, this, hsc, isChannelOp]
      · simp [List.filter_append, List.filter_cons, List.filter_replicate, isChannelOp]
    · rw [h]
      have := hp.2.2
      simp only [channelOps] at this hc hsc ⊢
      refine ⟨?_, fun _ => ?_, fun _ htt => absurd htt ht, fun _ _ => trivial,
        fun hb => absurd ⟨hcp, hso⟩ hb⟩
      · simp [List.filter_append, List.filter_cons, List.filter_replicate, hp.2.1, hs.2.2,
          isMapping]
      · simp [List.filter_append, List.filter_cons, List.filter_replicate, this, hsc,
          isChannelOp]
    · rw [h]
      have := hp.2.2
      simp only [channelOps] at this hc hsc ⊢
      refine ⟨?_, fun _ => ?_, fun _ htt => absurd htt ht, fun _ _ => trivial,
        fun hb => absurd ⟨hcp, hso⟩ hb⟩
      · simp [List.filter_append, List.filter_cons, List.filter_replicate, hp.2.1, hs.2.2,
          hh.2.2, isMapping]
      · simp [List.filter_append, List.filter_cons, List.filter_replicate, this, hsc, hc,
          isChannelOp]


theorem identity_mapping_and_channel_order_witness :
    unshareUser usernsRunner ∧
    (∃ rest, (syncWithChild 16 usernsRunner (3, 4) 1234 0 interruptedWorld).trace =
        Effect.close 4 :: Effect.writeIDMaps 1234 :: Effect.writeMapAck 3 EPERM :: rest ∧
      (rest ++ (syncWithChild 16 usernsRunner (3, 4) 1234 0 interruptedWorld).background).filter
        isMapping = []) ∧
    channelOps 3 ((syncWithChild 16 plainRunner (3, 4) 1234 0 interruptedWorld).trace ++
        (syncWithChild 16 plainRunner (3, 4) 1234 0 interruptedWorld).background) =
      [Effect.read 3, Effect.read 3, Effect.writeRelease 3 0, Effect.read 3] :=
  ⟨by decide,
   (identity_mapping_and_channel_order 16 usernsRunner (3, 4) 1234 interruptedWorld).2.1
     (by decide),
   ((identity_mapping_and_channel_order 16 plainRunner (3, 4) 1234 interruptedWorld).2.2
     (by decide)).2.1 ⟨by decide, Or.inl rfl⟩⟩

end Forkexec
